import Mathlib

/-
Verification of the upload controller in src/script.js: a single click
handler that uploads a selected file via POST, then either reports an
error or triggers a browser download of the response body under a
computed filename.  The handler is embedded as the list of primitive
steps it performs (a trace), and the UI state is obtained by folding the
steps' effects.
-/

namespace MdConversion

/-- A selected file as the file input exposes it: a name and binary content. -/
structure File where
  name : String
  content : List Nat
deriving DecidableEq

/-- Whether `pat` occurs at the very start of `s` (character lists). -/
def isPrefixOfL : List Char → List Char → Bool
  | [], _ => true
  | _ :: _, [] => false
  | a :: pat, b :: s => a == b && isPrefixOfL pat s

/-- Whether `pat` occurs as a contiguous substring of `s`. -/
def containsSub (pat : List Char) : List Char → Bool
  | [] => isPrefixOfL pat []
  | c :: rest => isPrefixOfL pat (c :: rest) || containsSub pat rest

/-- JavaScript `String.prototype.replace` with a string pattern, on character
lists: only the first occurrence of `pat` is replaced, and the list is
unchanged when `pat` does not occur. -/
def listReplaceFirst (pat repl : List Char) : List Char → List Char
  | [] => if isPrefixOfL pat [] then repl else []
  | c :: rest =>
    if isPrefixOfL pat (c :: rest) then repl ++ (c :: rest).drop pat.length
    else c :: listReplaceFirst pat repl rest

/-- `s.replace(pat, repl)` for a string pattern, as JavaScript defines it:
replace the first occurrence only. -/
def jsReplaceFirst (s pat repl : String) : String :=
  String.mk (listReplaceFirst pat.data repl.data s.data)

/-- The greedy body of the regex after the literal opening part: the longest
capture of one or more non-newline characters followed by a closing double
quote.  `some` holds the captured characters. -/
def greedyBody (t : List Char) : Option (List Char) :=
  (List.range t.length).reverse.findSome? fun j =>
    if 1 ≤ j ∧ t.get? j = some '"' ∧ '\n' ∉ t.take j then some (t.take j)
    else none

/-- A match of the regex starting exactly at `s`: the literal
`filename="` followed by the greedy body. -/
def matchFrom (s : List Char) : Option (List Char) :=
  if isPrefixOfL "filename=\"".data s then greedyBody (s.drop 10) else none

/-- JavaScript `cd.match(regex)[1]` for the filename regex of line 39:
the capture of the leftmost match, greedy within it. -/
def regexFilenameCapture (s : String) : Option String :=
  ((List.range s.data.length).findSome? fun i =>
    matchFrom (s.data.drop i)).map String.mk

/-- Lines 36-41: the output filename.  Start from
`file.name.replace('.xlsx', '.md')`; when the content-disposition header is
present and truthy (non-empty) and the regex matches, the captured group
overrides it. -/
def computeFilename (name : String) (contentDisposition : Option String) :
    String :=
  let filename := jsReplaceFirst name ".xlsx" ".md"
  match contentDisposition with
  | none => filename
  | some cd =>
    if cd = "" then filename
    else
      match regexFilenameCapture cd with
      | some cap => cap
      | none => filename

/-- The filename contributed by the content-disposition header, if any:
`none` when the header is absent, empty, or the regex does not match. -/
def headerFilename : Option String → Option String
  | none => none
  | some cd => if cd = "" then none else regexFilenameCapture cd

/-- The filename derivation as the spec's sentence words it: replace a
`.xlsx` SUFFIX of the original name with `.md` (stated for comparison with
the code's `jsReplaceFirst`, which replaces the first occurrence anywhere). -/
def specSuffixReplace (name : String) : String :=
  if isPrefixOfL ".xlsx".data.reverse name.data.reverse then
    String.mk (name.data.take (name.data.length - 5)) ++ ".md"
  else name

/-- `Response.ok`: the HTTP status lies in the 2xx success range. -/
def respOk (status : Nat) : Bool :=
  decide (200 ≤ status ∧ status ≤ 299)

/-- The settled result of `await fetch(...)` (line 22): either the promise
rejected with an error message, or it resolved to a response carrying a
status, an optional content-disposition header, and a body read
(`res.blob()`, line 35) that itself either yields the bytes or throws. -/
inductive FetchOutcome where
  | rejected (message : String)
  | resolved (status : Nat) (contentDisposition : Option String)
      (blobResult : Except String (List Nat))

/-- The observable primitive steps the click handler performs. -/
inductive Ev where
  | setStatus (text : String)
  | setDisabled (b : Bool)
  | issueRequest
  | settle
  | consoleLog
  | consumeBody
  | download (filename : String) (content : List Nat)
deriving DecidableEq

/-- The UI-visible state the handler mutates. -/
structure UIState where
  statusText : String
  btnDisabled : Bool
  requestIssued : Bool
  bodyConsumed : Bool
  downloads : List (String × List Nat)
deriving DecidableEq

/-- The state before the click: button enabled, nothing issued or consumed. -/
def initState : UIState :=
  { statusText := "", btnDisabled := false, requestIssued := false,
    bodyConsumed := false, downloads := [] }

/-- The effect of one primitive step on the UI state. -/
def stepEv (st : UIState) : Ev → UIState
  | Ev.setStatus t => { st with statusText := t }
  | Ev.setDisabled b => { st with btnDisabled := b }
  | Ev.issueRequest => { st with requestIssued := true }
  | Ev.settle => st
  | Ev.consoleLog => st
  | Ev.consumeBody => { st with bodyConsumed := true }
  | Ev.download fn c => { st with downloads := st.downloads ++ [(fn, c)] }

/-- Run a list of steps from a state. -/
def runTrace (st : UIState) (evs : List Ev) : UIState :=
  evs.foldl stepEv st

/-- Lines 27-53: the steps inside the try block once the fetch has settled.
On rejection, the catch clause (line 52) writes the transport-error message.
On a non-ok status the handler writes the status-code error and re-enables
the button (lines 30-31) before returning; otherwise it reads the body
(line 35, which may itself throw into the same catch clause), triggers the
download and writes the completion message. -/
def branchTrace (file : File) (outcome : FetchOutcome) : List Ev :=
  match outcome with
  | FetchOutcome.rejected m => [Ev.setStatus ("通信エラー: " ++ m)]
  | FetchOutcome.resolved status cd blobResult =>
    Ev.consoleLog ::
      (if respOk status = true then
        Ev.consumeBody ::
          (match blobResult with
          | Except.error m => [Ev.setStatus ("通信エラー: " ++ m)]
          | Except.ok body =>
            [Ev.download (computeFilename file.name cd) body,
              Ev.setStatus "完了しました"])
      else [Ev.setStatus ("エラー: " ++ toString status), Ev.setDisabled false])

/-- Lines 5-57: the whole trace of one click-handler invocation, given the
selected file (if any) and the outcome the fetch settles to.  With no file
the handler writes the prompt and returns (lines 8-11).  Otherwise it
disables the button, writes the progress message, issues the POST, awaits
the outcome, runs the corresponding branch, and the finally clause
(lines 54-56) re-enables the button last. -/
def handlerTrace (selected : Option File) (outcome : FetchOutcome) : List Ev :=
  match selected with
  | none => [Ev.setStatus "ファイルを選択してください"]
  | some file =>
    [Ev.setDisabled true, Ev.setStatus "生成中...", Ev.issueRequest, Ev.settle]
      ++ branchTrace file outcome ++ [Ev.setDisabled false]

/-- The UI state after one complete click-handler invocation. -/
def runHandler (selected : Option File) (outcome : FetchOutcome) : UIState :=
  runTrace initState (handlerTrace selected outcome)

/-! Helper lemmas shared by the claims. -/

theorem isPrefixOfL_self (l : List Char) : isPrefixOfL l l = true := by
  induction l with
  | nil => rfl
  | cons c cs ih => simp [isPrefixOfL, ih]

theorem containsSub_append (pre pat : List Char) :
    containsSub pat (pre ++ pat) = true := by
  induction pre with
  | nil =>
    cases pat with
    | nil => rfl
    | cons c cs => simp [containsSub, isPrefixOfL_self]
  | cons c cs ih => simp [containsSub, ih]

theorem listReplaceFirst_eq_self (pat repl s : List Char)
    (h : containsSub pat s = false) : listReplaceFirst pat repl s = s := by
  induction s with
  | nil =>
    simp [containsSub] at h
    simp [listReplaceFirst, h]
  | cons c rest ih =>
    simp [containsSub] at h
    simp [listReplaceFirst, h.1, ih h.2]

theorem computeFilename_eq (name : String) (cd : Option String) :
    computeFilename name cd
      = (headerFilename cd).getD (jsReplaceFirst name ".xlsx" ".md") := by
  cases cd with
  | none => rfl
  | some c =>
    by_cases hc : c = ""
    · simp [computeFilename, headerFilename, hc]
    · cases hr : regexFilenameCapture c <;>
        simp [computeFilename, headerFilename, hc, hr]

theorem runTrace_append (st : UIState) (l₁ l₂ : List Ev) :
    runTrace st (l₁ ++ l₂) = runTrace (runTrace st l₁) l₂ :=
  List.foldl_append stepEv st l₁ l₂

theorem count_issueRequest_branch (file : File) (outcome : FetchOutcome) :
    (branchTrace file outcome).count Ev.issueRequest = 0 := by
  cases outcome with
  | rejected m => rfl
  | resolved status cd blobResult =>
    cases h : respOk status with
    | false => simp [branchTrace, h]
    | true =>
      cases blobResult with
      | error m => simp [branchTrace, h]
      | ok body => simp [branchTrace, h]

/-! The claims. -/

/-- C2: for any selected file, if the upload request resolves with HTTP
status 200, body B, and header content-disposition: filename="out.md", then
the triggered download has filename exactly out.md and its content equals
B. -/
theorem download_matches_header_filename (file : File) (B : List Nat) :
    (runHandler (some file)
      (FetchOutcome.resolved 200 (some "filename=\"out.md\"")
        (Except.ok B))).downloads = [("out.md", B)] := by
  have hh : headerFilename (some "filename=\"out.md\"") = some "out.md" := by
    decide
  have hc : computeFilename file.name (some "filename=\"out.md\"")
      = "out.md" := by
    rw [computeFilename_eq, hh]
    rfl
  show [(computeFilename file.name (some "filename=\"out.md\""), B)]
      = [("out.md", B)]
  rw [hc]

/-- C3: for every invocation of the upload operation with a file selected,
regardless of which branch is taken (success, non-2xx HTTP status, or
network-level rejection), the trigger control ends in an enabled state. -/
theorem button_enabled_after_any_outcome (file : File)
    (outcome : FetchOutcome) :
    (runHandler (some file) outcome).btnDisabled = false := by
  show (runTrace initState
      ([Ev.setDisabled true, Ev.setStatus "生成中...", Ev.issueRequest,
        Ev.settle]
        ++ (branchTrace file outcome ++ [Ev.setDisabled false]))).btnDisabled
      = false
  rw [runTrace_append, runTrace_append]
  rfl

/-- C4: if the trigger is activated while no file is selected, the status
text is set to the "please select a file" message, no network request is
issued, and the trigger control remains enabled (it is never disabled on
this path). -/
theorem no_file_short_circuit (outcome : FetchOutcome) :
    (runHandler none outcome).statusText = "ファイルを選択してください" ∧
    (runHandler none outcome).requestIssued = false ∧
    (runHandler none outcome).btnDisabled = false ∧
    ∀ b : Bool, Ev.setDisabled b ∉ handlerTrace none outcome := by
  refine ⟨rfl, rfl, rfl, ?_⟩
  intro b hb
  simp [handlerTrace] at hb

/-- C6: if the network call rejects with an exception carrying message m,
the status text is set to an error message embedding m, the trigger control
is re-enabled, and the operation terminates. -/
theorem network_error_sets_status_and_reenables (file : File) (m : String) :
    (runHandler (some file) (FetchOutcome.rejected m)).statusText
        = "通信エラー: " ++ m ∧
    containsSub m.data
        (runHandler (some file) (FetchOutcome.rejected m)).statusText.data
        = true ∧
    (runHandler (some file) (FetchOutcome.rejected m)).btnDisabled = false := by
  refine ⟨rfl, ?_, rfl⟩
  exact containsSub_append "通信エラー: ".data m.data

/-- C8: given a selected file named report.xlsx and a 200 response with no
content-disposition header, the downloaded filename is exactly report.md. -/
theorem xlsx_fallback_filename (content B : List Nat) :
    (runHandler (some { name := "report.xlsx", content := content })
      (FetchOutcome.resolved 200 none (Except.ok B))).downloads
      = [("report.md", B)] := by
  have hc : computeFilename "report.xlsx" none = "report.md" := by decide
  show [(computeFilename "report.xlsx" none, B)] = [("report.md", B)]
  rw [hc]

/-- C5: if the transport succeeds but the HTTP status is non-2xx, the status
text is set to an error message embedding the numeric status code, the
trigger control is re-enabled, the operation terminates, and the response
body is not consumed. -/
theorem http_error_sets_status_and_reenables (file : File) (status : Nat)
    (cd : Option String) (blobResult : Except String (List Nat))
    (h : respOk status = false) :
    (runHandler (some file)
        (FetchOutcome.resolved status cd blobResult)).statusText
      = "エラー: " ++ toString status ∧
    containsSub (toString status).data
      (runHandler (some file)
        (FetchOutcome.resolved status cd blobResult)).statusText.data = true ∧
    (runHandler (some file)
        (FetchOutcome.resolved status cd blobResult)).btnDisabled = false ∧
    (runHandler (some file)
        (FetchOutcome.resolved status cd blobResult)).bodyConsumed = false ∧
    (runHandler (some file)
        (FetchOutcome.resolved status cd blobResult)).downloads = [] := by
  have hb : branchTrace file (FetchOutcome.resolved status cd blobResult)
      = [Ev.consoleLog, Ev.setStatus ("エラー: " ++ toString status),
          Ev.setDisabled false] := by
    simp [branchTrace, h]
  have e : runHandler (some file) (FetchOutcome.resolved status cd blobResult)
      = { statusText := "エラー: " ++ toString status, btnDisabled := false,
          requestIssued := true, bodyConsumed := false, downloads := [] } := by
    show runTrace initState
        ([Ev.setDisabled true, Ev.setStatus "生成中...", Ev.issueRequest,
          Ev.settle]
          ++ (branchTrace file (FetchOutcome.resolved status cd blobResult)
              ++ [Ev.setDisabled false])) = _
    rw [hb]
    rfl
  rw [e]
  exact ⟨rfl, containsSub_append "エラー: ".data (toString status).data,
    rfl, rfl, rfl⟩

/-- C5 witness: a concrete 500 response. -/
theorem http_error_sets_status_and_reenables_witness :
    respOk 500 = false ∧
    ((runHandler (some { name := "a.xlsx", content := [] })
        (FetchOutcome.resolved 500 none (Except.ok []))).statusText
      = "エラー: " ++ toString 500 ∧
    containsSub (toString 500).data
      (runHandler (some { name := "a.xlsx", content := [] })
        (FetchOutcome.resolved 500 none (Except.ok []))).statusText.data
      = true ∧
    (runHandler (some { name := "a.xlsx", content := [] })
        (FetchOutcome.resolved 500 none (Except.ok []))).btnDisabled = false ∧
    (runHandler (some { name := "a.xlsx", content := [] })
        (FetchOutcome.resolved 500 none (Except.ok []))).bodyConsumed
      = false ∧
    (runHandler (some { name := "a.xlsx", content := [] })
        (FetchOutcome.resolved 500 none (Except.ok []))).downloads = []) :=
  ⟨by decide,
    http_error_sets_status_and_reenables { name := "a.xlsx", content := [] }
      500 none (Except.ok []) (by decide)⟩

/-- C10: any exception thrown after a successful 2xx transport — here, the
body read `res.blob()` rejecting — is caught by the same handler and
reported exactly like a network failure: the status text becomes the
transport-error message embedding the exception's message, the trigger is
re-enabled, and no download happens. -/
theorem post_transport_exception_caught (file : File) (status : Nat)
    (cd : Option String) (m : String) (hok : respOk status = true) :
    (runHandler (some file)
        (FetchOutcome.resolved status cd (Except.error m))).statusText
      = "通信エラー: " ++ m ∧
    containsSub m.data
      (runHandler (some file)
        (FetchOutcome.resolved status cd (Except.error m))).statusText.data
      = true ∧
    (runHandler (some file)
        (FetchOutcome.resolved status cd (Except.error m))).btnDisabled
      = false ∧
    (runHandler (some file)
        (FetchOutcome.resolved status cd (Except.error m))).downloads
      = [] := by
  have hb : branchTrace file (FetchOutcome.resolved status cd (Except.error m))
      = [Ev.consoleLog, Ev.consumeBody,
          Ev.setStatus ("通信エラー: " ++ m)] := by
    simp [branchTrace, hok]
  have e : runHandler (some file)
        (FetchOutcome.resolved status cd (Except.error m))
      = { statusText := "通信エラー: " ++ m, btnDisabled := false,
          requestIssued := true, bodyConsumed := true, downloads := [] } := by
    show runTrace initState
        ([Ev.setDisabled true, Ev.setStatus "生成中...", Ev.issueRequest,
          Ev.settle]
          ++ (branchTrace file (FetchOutcome.resolved status cd
              (Except.error m)) ++ [Ev.setDisabled false])) = _
    rw [hb]
    rfl
  rw [e]
  exact ⟨rfl, containsSub_append "通信エラー: ".data m.data, rfl, rfl⟩

/-- C10 witness: a 200 response whose body read throws "boom". -/
theorem post_transport_exception_caught_witness :
    respOk 200 = true ∧
    ((runHandler (some { name := "a.xlsx", content := [] })
        (FetchOutcome.resolved 200 none (Except.error "boom"))).statusText
      = "通信エラー: " ++ "boom" ∧
    containsSub ("boom" : String).data
      (runHandler (some { name := "a.xlsx", content := [] })
        (FetchOutcome.resolved 200 none (Except.error "boom"))).statusText.data
      = true ∧
    (runHandler (some { name := "a.xlsx", content := [] })
        (FetchOutcome.resolved 200 none (Except.error "boom"))).btnDisabled
      = false ∧
    (runHandler (some { name := "a.xlsx", content := [] })
        (FetchOutcome.resolved 200 none (Except.error "boom"))).downloads
      = []) :=
  ⟨by decide,
    post_transport_exception_caught { name := "a.xlsx", content := [] }
      200 none "boom" (by decide)⟩

/-- C1 counterexample: for the file name `b.xlsx.xlsx` (a 200 response with
no content-disposition header) the code downloads under `b.md.xlsx` — the
FIRST occurrence of `.xlsx` is replaced — while replacing the `.xlsx`
suffix, as the claim words it, would give `b.xlsx.md`. -/
theorem download_filename_not_suffix_replace :
    (runHandler (some { name := "b.xlsx.xlsx", content := [] })
      (FetchOutcome.resolved 200 none (Except.ok [1, 2]))).downloads
      = [("b.md.xlsx", [1, 2])] ∧
    specSuffixReplace "b.xlsx.xlsx" = "b.xlsx.md" ∧
    ("b.md.xlsx" : String) ≠ "b.xlsx.md" := by
  refine ⟨by decide, by decide, by decide⟩

/-- C1 (amended): for every successful (2xx) response, the downloaded
filename is the content-disposition `filename="..."` capture when the
header is present and matching; otherwise it is the selected file's
original name with the first occurrence of the substring `.xlsx` replaced
by `.md`. -/
theorem download_filename_first_occurrence (file : File) (status : Nat)
    (cd : Option String) (B : List Nat) (hok : respOk status = true) :
    (runHandler (some file)
        (FetchOutcome.resolved status cd (Except.ok B))).downloads
      = [((headerFilename cd).getD (jsReplaceFirst file.name ".xlsx" ".md"),
          B)] := by
  have hb : branchTrace file (FetchOutcome.resolved status cd (Except.ok B))
      = [Ev.consoleLog, Ev.consumeBody,
          Ev.download (computeFilename file.name cd) B,
          Ev.setStatus "完了しました"] := by
    simp [branchTrace, hok]
  have e : (runHandler (some file)
        (FetchOutcome.resolved status cd (Except.ok B))).downloads
      = [(computeFilename file.name cd, B)] := by
    show (runTrace initState
        ([Ev.setDisabled true, Ev.setStatus "生成中...", Ev.issueRequest,
          Ev.settle]
          ++ (branchTrace file (FetchOutcome.resolved status cd (Except.ok B))
              ++ [Ev.setDisabled false]))).downloads = _
    rw [hb]
    rfl
  rw [e, computeFilename_eq]

/-- C1 witness: a 200 response with no header and the file `b.xlsx.xlsx`. -/
theorem download_filename_first_occurrence_witness :
    respOk 200 = true ∧
    (runHandler (some { name := "b.xlsx.xlsx", content := [] })
        (FetchOutcome.resolved 200 none (Except.ok [1]))).downloads
      = [((headerFilename none).getD
            (jsReplaceFirst "b.xlsx.xlsx" ".xlsx" ".md"), [1])] :=
  ⟨by decide,
    download_filename_first_occurrence { name := "b.xlsx.xlsx", content := [] }
      200 none [1] (by decide)⟩

/-- C9: for any selected file whose name contains no occurrence of the
substring `.xlsx`, given a 2xx response whose content-disposition header
yields no filename, the downloaded filename equals the original filename
unchanged — the fallback replacement is a no-op, not an error. -/
theorem fallback_noop_without_xlsx (file : File) (status : Nat)
    (cd : Option String) (B : List Nat) (hok : respOk status = true)
    (hname : containsSub ".xlsx".data file.name.data = false)
    (hcd : headerFilename cd = none) :
    (runHandler (some file)
        (FetchOutcome.resolved status cd (Except.ok B))).downloads
      = [(file.name, B)] := by
  have hrep : jsReplaceFirst file.name ".xlsx" ".md" = file.name := by
    show String.mk (listReplaceFirst ".xlsx".data ".md".data file.name.data)
        = file.name
    rw [listReplaceFirst_eq_self ".xlsx".data ".md".data file.name.data hname]
  have hb : branchTrace file (FetchOutcome.resolved status cd (Except.ok B))
      = [Ev.consoleLog, Ev.consumeBody,
          Ev.download (computeFilename file.name cd) B,
          Ev.setStatus "完了しました"] := by
    simp [branchTrace, hok]
  have e : (runHandler (some file)
        (FetchOutcome.resolved status cd (Except.ok B))).downloads
      = [(computeFilename file.name cd, B)] := by
    show (runTrace initState
        ([Ev.setDisabled true, Ev.setStatus "生成中...", Ev.issueRequest,
          Ev.settle]
          ++ (branchTrace file (FetchOutcome.resolved status cd (Except.ok B))
              ++ [Ev.setDisabled false]))).downloads = _
    rw [hb]
    rfl
  rw [e, computeFilename_eq, hcd, Option.getD_none, hrep]

/-- C9 witness: the file `notes.txt`, a 204 response, no header. -/
theorem fallback_noop_without_xlsx_witness :
    respOk 204 = true ∧
    containsSub ".xlsx".data ("notes.txt" : String).data = false ∧
    headerFilename none = none ∧
    (runHandler (some { name := "notes.txt", content := [] })
        (FetchOutcome.resolved 204 none (Except.ok [7]))).downloads
      = [("notes.txt", [7])] :=
  ⟨by decide, by decide, rfl,
    fallback_noop_without_xlsx { name := "notes.txt", content := [] }
      204 none [7] (by decide) (by decide) rfl⟩

/-- C7: for every invocation with a file selected, the first four steps (in
order) disable the trigger, set the "generating" status, issue the POST and
await its settling; the control is disabled after every one of those steps,
so it stays disabled for the whole time the request is in flight; the very
last step of every such trace is the re-enabling of the control (so it is
re-enabled only after the promise settles and ends enabled); and exactly one
request is issued per invocation. -/
theorem button_disabled_during_flight (file : File) (outcome : FetchOutcome) :
    (handlerTrace (some file) outcome).take 4
      = [Ev.setDisabled true, Ev.setStatus "生成中...", Ev.issueRequest,
          Ev.settle] ∧
    (∀ i, 1 ≤ i → i ≤ 4 →
      (runTrace initState
        ((handlerTrace (some file) outcome).take i)).btnDisabled = true) ∧
    (∃ pre, handlerTrace (some file) outcome
      = pre ++ [Ev.setDisabled false]) ∧
    (runHandler (some file) outcome).btnDisabled = false ∧
    (handlerTrace (some file) outcome).count Ev.issueRequest = 1 := by
  refine ⟨rfl, ?_, ?_, ?_, ?_⟩
  · intro i h1 h4
    interval_cases i <;> rfl
  · refine ⟨[Ev.setDisabled true, Ev.setStatus "生成中...", Ev.issueRequest,
      Ev.settle] ++ branchTrace file outcome, ?_⟩
    show [Ev.setDisabled true, Ev.setStatus "生成中...", Ev.issueRequest,
        Ev.settle] ++ (branchTrace file outcome ++ [Ev.setDisabled false]) = _
    rw [List.append_assoc]
  · show (runTrace initState
        ([Ev.setDisabled true, Ev.setStatus "生成中...", Ev.issueRequest,
          Ev.settle]
          ++ (branchTrace file outcome
              ++ [Ev.setDisabled false]))).btnDisabled = false
    rw [runTrace_append, runTrace_append]
    rfl
  · show ([Ev.setDisabled true, Ev.setStatus "生成中...", Ev.issueRequest,
        Ev.settle]
          ++ (branchTrace file outcome ++ [Ev.setDisabled false])).count
        Ev.issueRequest = 1
    rw [List.count_append, List.count_append, count_issueRequest_branch]
    rfl

end MdConversion
